import Mathlib

/-!
# Session handlers of `routes/users.js`

A shallow embedding of the six route handlers of `routes/users.js`
(login, register, refresh, logout, profile read, profile update) together
with the application-level error handler of `app.js`.

Modelling conventions
* The `users` table is a list of rows in the order the database returns
  them; `users[0]` is the head of the filtered list.  Column comparisons of
  a `where` clause are exact equality.
* A handler is a function of the table, the request and the clock reading
  `now = Math.floor(Date.now() / 1000)`; it returns what is sent to the
  client and the table afterwards.  One clock reading is used per request.
* The libraries `jsonwebtoken` and `bcrypt` are not part of the repository.
  A token is modelled by the payload it carries and the key it was signed
  with (the encoding of a token as text is taken to be injective);
  `jwt.sign` adds the `iat` claim, `jwt.verify` checks the signature and
  then the `exp` claim when there is one.  The password hasher is a
  parameter; the random salt of `bcrypt.hashSync` is an explicit argument.
* Request fields are typed: emails, passwords and profile fields are
  strings (the empty string stands for an absent or empty field, both are
  falsy in JavaScript), lifetimes are integers, `JWT_SECRET` is set.
* JavaScript numbers are binary64 values.  The lifetimes of a login request
  are the integer-valued numbers found in `req.body`; their sum with the
  clock reading is the binary64 sum `jsAdd`, which is the exact sum only
  while that stays below `2 ^ 53` in magnitude.  Clock readings are far
  below `2 ^ 53`, so the sums with the fixed lifetimes 600 and 86400 of the
  refresh handler are exact.
-/

namespace Users

/-! ## Tokens (`jsonwebtoken`) -/

/-- Payload of a token.  Access tokens are signed from `{ email, exp }`,
refresh tokens from `{ email, refresh_exp }`; `jwt.sign` adds `iat`. -/
structure Claims where
  email : String
  exp : Option Int
  refresh_exp : Option Int
  iat : Int
deriving DecidableEq, Repr

/-- A token as it travels in requests and is stored in the `refresh`
column: either a well-formed signed token, or any other text. -/
inductive Token where
  | jws (payload : Claims) (key : String)
  | malformed (raw : String)
deriving DecidableEq, Repr

/-- Result of `jwt.verify`: the decoded payload, or the message of the
error it throws. -/
inductive Verified where
  | ok (decoded : Claims)
  | thrown (message : String)
deriving DecidableEq, Repr

/-- JavaScript truthiness of a token value: only the empty text is falsy. -/
def Token.truthy : Token → Bool
  | .jws _ _ => true
  | .malformed raw => !(raw == "")

/-- JavaScript truthiness of a nullable token value (`null` is falsy). -/
def truthy : Option Token → Bool
  | none => false
  | some t => t.truthy

/-- JavaScript `x < n` where `x` may be `undefined`: comparing `undefined`
with a number is `false`. -/
def jsLt : Option Int → Int → Bool
  | none, _ => false
  | some x, n => decide (x < n)

/-! ## Numbers -/

/-- Number of binary digits of `a` beyond the 53 a binary64 significand
holds: halve until below `2 ^ 53`.  The fuel `a` itself always suffices. -/
def excessBits (a : Nat) : Nat → Nat
  | 0 => 0
  | fuel + 1 => if a < 2 ^ 53 then 0 else excessBits (a / 2) fuel + 1

/-- The binary64 value nearest to the integer `n`, ties to the even
significand (the rounding of every JavaScript arithmetic operation).
Integers below `2 ^ 53` in magnitude are binary64 values themselves.  The
results stay finite for the sums formed here: adding a clock reading to a
finite binary64 lifetime cannot reach `2 ^ 1024`. -/
def toDouble (n : Int) : Int :=
  if n.natAbs < 2 ^ 53 then n
  else
    let a := n.natAbs
    let s := excessBits a a
    let q := a / 2 ^ s
    let rem := a % 2 ^ s
    let half := 2 ^ (s - 1)
    let q1 := if rem > half ∨ (rem = half ∧ q % 2 = 1) then q + 1 else q
    let r : Int := ((q1 * 2 ^ s : Nat) : Int)
    if n < 0 then -r else r

/-- JavaScript `a + b` on integer-valued numbers: the exact sum, rounded to
binary64. -/
def jsAdd (a b : Int) : Int := toDouble (a + b)

/-- The test `Number.isSafeInteger(n)`: `n` lies strictly between
`-(2 ^ 53)` and `2 ^ 53`. -/
def isSafeInteger (n : Int) : Prop := n.natAbs < 2 ^ 53

instance (n : Int) : Decidable (isSafeInteger n) :=
  inferInstanceAs (Decidable (n.natAbs < 2 ^ 53))

namespace jwt

/-- The call `jwt.sign({ email, exp }, JWT_SECRET)` resp.
`jwt.sign({ email, refresh_exp }, JWT_SECRET)` at clock reading `now`. -/
def sign (email : String) (exp refresh_exp : Option Int) (secret : String) (now : Int) : Token :=
  .jws { email := email, exp := exp, refresh_exp := refresh_exp, iat := now } secret

/-- The call `jwt.verify(token, JWT_SECRET)` at clock reading `now`: the
signature is checked first, then `exp` when the payload has one. -/
def verify (token : Token) (secret : String) (now : Int) : Verified :=
  match token with
  | .malformed raw => if raw = "" then .thrown "jwt must be provided" else .thrown "jwt malformed"
  | .jws payload key =>
    if key ≠ secret then .thrown "invalid signature"
    else match payload.exp with
      | some e => if now ≥ e then .thrown "jwt expired" else .ok payload
      | none => .ok payload

/-- The payload of a token without any check (`jwt.decode`). -/
def decode : Token → Option Claims
  | .jws payload _ => some payload
  | .malformed _ => none

end jwt

/-! ## Environment -/

/-- Process configuration and the password hasher (`bcrypt`). -/
structure Env where
  JWT_SECRET : String
  hashSync : String → Nat → String
  compare : String → String → Bool

/-! ## The `users` table (`knex`) -/

/-- A row of the `users` table. -/
structure User where
  email : String
  hash : String
  refresh : Option Token
  firstname : Option String
  lastname : Option String
  dob : Option String
  address : Option String
deriving DecidableEq, Repr

abbrev Store := List User

/-- Rows selected by `.where("email", "=", email)`. -/
def whereEmail (db : Store) (email : String) : List User :=
  db.filter (fun u => decide (u.email = email))

/-- Rows selected by `.where("refresh", "=", refreshToken)`. -/
def whereRefresh (db : Store) (refreshToken : Token) : List User :=
  db.filter (fun u => decide (u.refresh = some refreshToken))

/-- The statement `.where({ email }).update({ refresh })`. -/
def updateRefresh (db : Store) (email : String) (refresh : Token) : Store :=
  db.map (fun u => if u.email = email then { u with refresh := some refresh } else u)

/-- The statement `.where("refresh", refreshToken).update({ refresh: null })`. -/
def clearRefresh (db : Store) (refreshToken : Token) : Store :=
  db.map (fun u => if u.refresh = some refreshToken then { u with refresh := none } else u)

/-- The statement
`.where("email", "=", email).update({ firstname, lastname, dob, address })`. -/
def updateProfile (db : Store) (email firstname lastname dob address : String) : Store :=
  db.map (fun u => if u.email = email then
    { u with firstname := some firstname, lastname := some lastname,
             dob := some dob, address := some address } else u)

/-- The statement `.insert({ email, hash })`: the columns not named are
null. -/
def insert (db : Store) (email hash : String) : Store :=
  db ++ [{ email := email, hash := hash, refresh := none, firstname := none,
           lastname := none, dob := none, address := none }]

/-! ## Responses -/

/-- JSON bodies sent by the handlers. -/
inductive Body where
  | error (message : String)
  | failure (message : String)
  | created
  | loginTokens (token : Token) (expires_in : Int) (refresh_token : Token) (refresh_expires_in : Int)
  | refreshTokens (token : Token) (expires_in : Int) (refresh_token : Token) (refresh_exp : Int)
  | invalidated
  | fullProfile (email : String) (firstname lastname dob address : Option String)
  | publicProfile (email : String) (firstname lastname : Option String)
  | updated (firstname lastname dob address : Option String)
deriving DecidableEq, Repr

/-- What the client observes: a response, or nothing when the handler ends
in a promise rejection that nobody handles. -/
inductive Outcome where
  | response (status : Nat) (body : Body)
  | unhandledRejection (message : String)
deriving DecidableEq, Repr

/-- The error middleware of `app.js`, reached when a handler throws
synchronously: `res.status(err.status || 500)` and
`{ error: true, message: err.message }`.  The errors thrown by `jwt.verify`
carry no `status`. -/
def errorHandler (message : String) : Outcome :=
  .response 500 (.error message)

/-! ## Requests -/

structure LoginReq where
  email : String
  password : String
  bearerExpiresInSeconds : Int
  refreshExpiresInSeconds : Int
deriving DecidableEq, Repr

structure RegisterReq where
  email : String
  password : String
deriving DecidableEq, Repr

/-- Body of `POST /refresh` and `POST /logout`. -/
structure TokenReq where
  refreshToken : Option Token
deriving DecidableEq, Repr

/-- The `Authorization` header as the profile update reads it: absent, not
starting with `Bearer `, or `Bearer ` followed by a token
(`authHeader.split(" ")[1]`). -/
inductive AuthHeader where
  | absent
  | other
  | bearer (token : Token)
deriving DecidableEq, Repr

structure ProfileReq where
  email : String
  firstname : String
  lastname : String
  dob : String
  address : String
  authorization : AuthHeader
deriving DecidableEq, Repr

/-! ## Handlers -/

/-- Promise chain of `router.post("/login")` up to its `.catch`: a thrown
error is `Except.error` with its message.  The two expiry times are
JavaScript sums of the clock reading and the lifetimes of the request. -/
def loginChain (env : Env) (db : Store) (req : LoginReq) (now : Int) :
    Except String (Outcome × Store) :=
  match whereEmail db req.email with
  | [] => .error "Incorrect email or password"
  | user :: _ =>
    if !env.compare req.password user.hash then .error "Incorrect email or password"
    else
      let exp := jsAdd now req.bearerExpiresInSeconds
      let token := jwt.sign req.email (some exp) none env.JWT_SECRET now
      let refresh_exp := jsAdd now req.refreshExpiresInSeconds
      let refresh_token := jwt.sign req.email none (some refresh_exp) env.JWT_SECRET now
      .ok (.response 200 (.loginTokens token exp refresh_token refresh_exp),
           updateRefresh db req.email refresh_token)

/-- Handler `router.post("/login")`. -/
def login (env : Env) (db : Store) (req : LoginReq) (now : Int) : Outcome × Store :=
  if req.email = "" ∨ req.password = "" then
    (.response 400 (.error "Request body incomplete, both email and password are required"), db)
  else
    match loginChain env db req now with
    | .ok r => r
    | .error message => (.response 401 (.error message), db)

/-- Promise chain of `router.post("/register")` up to its `.catch`. -/
def registerChain (env : Env) (db : Store) (req : RegisterReq) (salt : Nat) :
    Except String (Outcome × Store) :=
  match whereEmail db req.email with
  | _ :: _ => .error "User already exists"
  | [] =>
    let hash := env.hashSync req.password salt
    .ok (.response 201 .created, insert db req.email hash)

/-- Handler `router.post("/register")`; `salt` is the randomness drawn by
`bcrypt.hashSync`. -/
def register (env : Env) (db : Store) (req : RegisterReq) (salt : Nat) : Outcome × Store :=
  if req.email = "" ∨ req.password = "" then
    (.response 400 (.error "Request body incomplete, both email and password are required"), db)
  else
    match registerChain env db req salt with
    | .ok r => r
    | .error message => (.response 500 (.failure message), db)

/-- Promise chain of `router.post("/refresh")` up to its `.catch`. -/
def refreshChain (env : Env) (db : Store) (refreshToken : Token) (now : Int) :
    Except String (Outcome × Store) :=
  match whereRefresh db refreshToken with
  | [] => .error "User not found"
  | user :: _ =>
    match user.refresh with
    | none => .error "jwt must be provided"
    | some refresh =>
      match jwt.verify refresh env.JWT_SECRET now with
      | .thrown message => .error message
      | .ok decoded =>
        if jsLt decoded.refresh_exp now then
          .ok (.response 401 (.error "JWT token has expired"), db)
        else
          let email := decoded.email
          let expires_in : Int := 60 * 10
          let exp := now + expires_in
          let token := jwt.sign email (some exp) none env.JWT_SECRET now
          let refresh_expires_in : Int := 60 * 60 * 24
          let refresh_exp := now + refresh_expires_in
          let new_refresh_token := jwt.sign email none (some refresh_exp) env.JWT_SECRET now
          .ok (.response 200 (.refreshTokens token exp new_refresh_token refresh_exp),
               updateRefresh db email new_refresh_token)

/-- Handler `router.post("/refresh")`. -/
def refresh (env : Env) (db : Store) (req : TokenReq) (now : Int) : Outcome × Store :=
  match req.refreshToken with
  | none => (.response 400 (.error "Request body incomplete, refresh token required"), db)
  | some refreshToken =>
    if !refreshToken.truthy then
      (.response 400 (.error "Request body incomplete, refresh token required"), db)
    else
      match refreshChain env db refreshToken now with
      | .ok r => r
      | .error message => (.response 401 (.error message), db)

/-- Handler `router.post("/logout")`.  `jwt.verify` is called outside any
`try`, so what it throws reaches the error middleware; the error thrown in
the `.then` callback when no row matched is not handled by anyone. -/
def logout (env : Env) (db : Store) (req : TokenReq) (now : Int) : Outcome × Store :=
  match req.refreshToken with
  | none => (.response 400 (.error "Request body incomplete, refresh token required"), db)
  | some refreshToken =>
    if !refreshToken.truthy then
      (.response 400 (.error "Request body incomplete, refresh token required"), db)
    else
      match jwt.verify refreshToken env.JWT_SECRET now with
      | .thrown message => (errorHandler message, db)
      | .ok decoded =>
        if jsLt decoded.exp now then
          (.response 401 (.error "JWT token has expired"), db)
        else
          let rowCount := (whereRefresh db refreshToken).length
          let db1 := clearRefresh db refreshToken
          if rowCount = 0 then (.unhandledRejection "Refresh token not found", db1)
          else (.response 200 .invalidated, db1)

/-- Handler `router.get("/:email/profile")`; it writes nothing. -/
def getProfile (env : Env) (db : Store) (email : String) (now : Int) : Outcome :=
  match whereEmail db email with
  | [] => .response 404 (.error "User not found")
  | row :: _ =>
    if truthy row.refresh then
      match row.refresh with
      | none => .response 401 (.error "Authorization header ('Bearer token') not found")
      | some refresh =>
        match jwt.verify refresh env.JWT_SECRET now with
        | .thrown _ => .response 401 (.error "Authorization header ('Bearer token') not found")
        | .ok decoded =>
          match whereEmail db decoded.email with
          | [] => .response 404 (.error "User not found")
          | user :: _ =>
            .response 200 (.fullProfile user.email user.firstname user.lastname user.dob user.address)
    else
      match whereEmail db email with
      | [] => .response 404 (.error "User not found")
      | user :: _ => .response 200 (.publicProfile user.email user.firstname user.lastname)

/-- Handler `router.put("/:email/profile")`. -/
def putProfile (env : Env) (db : Store) (req : ProfileReq) (now : Int) : Outcome × Store :=
  if req.firstname = "" ∨ req.lastname = "" ∨ req.dob = "" ∨ req.address = "" then
    (.response 400
      (.error "Request body incomplete: firstName, lastName, dob, and address are required"), db)
  else
    match req.authorization with
    | .absent => (.response 401 (.error "Authorization header ('Bearer token') not found"), db)
    | .other => (.response 401 (.error "Authorization header ('Bearer token') not found"), db)
    | .bearer token =>
      match jwt.verify token env.JWT_SECRET now with
      | .thrown message => (errorHandler message, db)
      | .ok decoded =>
        if decoded.email ≠ req.email then (.response 403 (.error "Forbidden"), db)
        else if jsLt decoded.refresh_exp now then
          (.response 401 (.error "JWT token has expired"), db)
        else
          let db1 := updateProfile db req.email req.firstname req.lastname req.dob req.address
          match whereEmail db1 req.email with
          | [] => (.response 404 (.error "User not found"), db1)
          | user :: _ =>
            (.response 200 (.updated user.firstname user.lastname user.dob user.address), db1)

/-! ## Reachable tables -/

/-- A request to one of the six routes. -/
inductive Request where
  | login (req : LoginReq)
  | register (req : RegisterReq) (salt : Nat)
  | refresh (req : TokenReq)
  | logout (req : TokenReq)
  | getProfile (email : String)
  | putProfile (req : ProfileReq)

/-- One request served at clock reading `now`. -/
def serve (env : Env) (db : Store) (now : Int) : Request → Outcome × Store
  | .login req => login env db req now
  | .register req salt => register env db req salt
  | .refresh req => refresh env db req now
  | .logout req => logout env db req now
  | .getProfile email => (getProfile env db email now, db)
  | .putProfile req => putProfile env db req now

/-- Tables reachable from the empty table by serving requests. -/
inductive Reachable (env : Env) : Store → Prop where
  | empty : Reachable env []
  | serve (db : Store) (now : Int) (req : Request) :
      Reachable env db → Reachable env (serve env db now req).2

/-- A hasher used for concrete evaluations: the digest is `salt` dollar
signs, a bar and the password; verification drops the dollar signs and
compares the rest. -/
def demoEnv : Env where
  JWT_SECRET := "secret"
  hashSync := fun password salt => String.mk (List.replicate salt '$' ++ '|' :: password.data)
  compare := fun password hash =>
    decide (hash.data.dropWhile (fun c => c == '$') = '|' :: password.data)

/-- A table with one registered user who has logged in at second 1000. -/
def demoDb : Store :=
  (login demoEnv (register demoEnv [] ⟨"a@x", "pw"⟩ 2).2 ⟨"a@x", "pw", 600, 3600⟩ 1000).2

/-- The refresh token that `POST /refresh` issues at second 2000 for the
user of `demoDb`. -/
def rotatedToken : Token := jwt.sign "a@x" none (some 88400) "secret" 2000

/-- The table `demoDb` after the user has refreshed at second 2000 with the
refresh token obtained at login. -/
def rotatedDb : Store :=
  (refresh demoEnv demoDb ⟨some (jwt.sign "a@x" none (some 4600) "secret" 1000)⟩ 2000).2

/-- The stored refresh token of a row, when there is one, decodes to claims
naming the email of that row. -/
def User.ownsRefresh (u : User) : Bool :=
  match u.refresh with
  | none => true
  | some tok =>
    match jwt.decode tok with
    | some c => c.email == u.email
    | none => false

/-- Every row of the table owns its stored refresh token. -/
def NamesOwner (db : Store) : Prop := ∀ u ∈ db, u.ownsRefresh = true

instance (db : Store) : Decidable (NamesOwner db) :=
  inferInstanceAs (Decidable (∀ u ∈ db, u.ownsRefresh = true))

/-- The table `demoDb` after its user has set a profile with the access
token obtained at login. -/
def profiledDb : Store :=
  (putProfile demoEnv demoDb
    ⟨"a@x", "Ann", "Lee", "2000-01-01", "1 Main St",
      .bearer (jwt.sign "a@x" (some 1600) none "secret" 1000)⟩ 1200).2

/-- Every stored refresh token was signed by this server from
`{ email, refresh_exp }` with the email of the row that stores it. -/
def SignedForOwner (env : Env) (db : Store) : Prop :=
  ∀ u ∈ db, ∀ tok, u.refresh = some tok →
    ∃ r i, tok = jwt.sign u.email none (some r) env.JWT_SECRET i

/-! ## Login failures -/

/-- C1: on every table, a login with non-empty email and password whose
email matches no row, and a login with non-empty email and password whose
email matches a row but whose password is rejected by the hasher for the
first matching row, both answer 401 with the message
"Incorrect email or password", and both leave the table as it was. -/
theorem login_failures_same_message (env : Env) (db : Store) (r1 r2 : LoginReq)
    (now1 now2 : Int) (user : User) (rest : List User)
    (h1 : r1.email ≠ "" ∧ r1.password ≠ "") (h2 : r2.email ≠ "" ∧ r2.password ≠ "")
    (hnone : whereEmail db r1.email = [])
    (hsome : whereEmail db r2.email = user :: rest)
    (hbad : env.compare r2.password user.hash = false) :
    login env db r1 now1 = (.response 401 (.error "Incorrect email or password"), db) ∧
    login env db r2 now2 = (.response 401 (.error "Incorrect email or password"), db) := by
  constructor
  · simp [login, loginChain, h1.1, h1.2, hnone]
  · simp [login, loginChain, h2.1, h2.2, hsome, hbad]

/-- Witness for C1: an unknown email and a known email with a wrong
password on `demoDb`. -/
theorem login_failures_same_message_witness :
    login demoEnv demoDb ⟨"b@x", "pw", 600, 3600⟩ 2000
      = (.response 401 (.error "Incorrect email or password"), demoDb) ∧
    login demoEnv demoDb ⟨"a@x", "wrong", 600, 3600⟩ 2001
      = (.response 401 (.error "Incorrect email or password"), demoDb) :=
  login_failures_same_message demoEnv demoDb ⟨"b@x", "pw", 600, 3600⟩ ⟨"a@x", "wrong", 600, 3600⟩
    2000 2001
    ⟨"a@x", "$$|pw", some (jwt.sign "a@x" none (some 4600) "secret" 1000), none, none, none, none⟩
    [] (by decide) (by decide) (by decide) (by decide) (by decide)

/-! ## Facts about the library model and the table -/

theorem verify_ok_decode {t : Token} {secret : String} {now : Int} {c : Claims}
    (h : jwt.verify t secret now = .ok c) : jwt.decode t = some c ∧ t.truthy = true := by
  cases t with
  | malformed raw => simp [jwt.verify] at h; split at h <;> simp at h
  | jws payload key =>
    simp only [jwt.verify] at h
    split at h
    · simp at h
    · split at h
      · split at h
        · simp at h
        · simp at h; simp [jwt.decode, Token.truthy, h]
      · simp at h; simp [jwt.decode, Token.truthy, h]

theorem whereRefresh_head {db : Store} {t : Token} {user : User} {rest : List User}
    (h : whereRefresh db t = user :: rest) : user ∈ db ∧ user.refresh = some t := by
  have hm : user ∈ whereRefresh db t := by rw [h]; exact List.mem_cons_self _ _
  simpa [whereRefresh, List.mem_filter] using hm

theorem whereEmail_head {db : Store} {e : String} {user : User} {rest : List User}
    (h : whereEmail db e = user :: rest) : user ∈ db ∧ user.email = e := by
  have hm : user ∈ whereEmail db e := by rw [h]; exact List.mem_cons_self _ _
  simpa [whereEmail, List.mem_filter] using hm

/-- What a 200 answer of `POST /refresh` tells about the request. -/
theorem refresh_success {env : Env} {db db1 : Store} {t : Token} {now : Int} {body : Body}
    (h : refresh env db ⟨some t⟩ now = (.response 200 body, db1)) :
    ∃ c, jwt.verify t env.JWT_SECRET now = .ok c ∧ (∃ u ∈ db, u.refresh = some t) ∧
      db1 = updateRefresh db c.email
        (jwt.sign c.email none (some (now + 86400)) env.JWT_SECRET now) ∧
      body = .refreshTokens (jwt.sign c.email (some (now + 600)) none env.JWT_SECRET now)
        (now + 600) (jwt.sign c.email none (some (now + 86400)) env.JWT_SECRET now)
        (now + 86400) := by
  simp only [refresh] at h
  split at h
  · simp at h
  · cases hch : refreshChain env db t now with
    | error m => rw [hch] at h; simp at h
    | ok r =>
      rw [hch] at h
      simp only at h
      subst h
      simp only [refreshChain] at hch
      split at hch
      · simp at hch
      · rename_i user rest hw
        obtain ⟨hmem, href⟩ := whereRefresh_head hw
        rw [href] at hch
        simp only at hch
        split at hch
        · simp at hch
        · rename_i c hv
          split at hch
          · simp at hch
          · simp only [Except.ok.injEq, Prod.mk.injEq, Outcome.response.injEq, true_and] at hch
            refine ⟨c, hv, ⟨user, hmem, href⟩, ?_, ?_⟩
            · rw [← hch.2]; norm_num
            · rw [← hch.1]; norm_num

/-- After the rotation to `newTok`, no row stores the presented token `t`
any more, provided the rows owned their tokens and `newTok` is not `t`. -/
theorem whereRefresh_after_rotation {db : Store} {t newTok : Token} {c : Claims}
    (hinv : NamesOwner db) (hdec : jwt.decode t = some c) (hne : newTok ≠ t) :
    whereRefresh (updateRefresh db c.email newTok) t = [] := by
  simp only [whereRefresh, updateRefresh, List.filter_eq_nil_iff, List.mem_map]
  rintro a ⟨u, hu, rfl⟩
  by_cases he : u.email = c.email
  · simp [he, hne]
  · simp only [he, if_false, decide_eq_true_eq]
    intro href
    have := hinv u hu
    simp [User.ownsRefresh, href, hdec] at this
    exact he this.symm

/-! ## Refresh rotation -/

/-- C2, counterexample: `rotatedDb` is reachable (register, login at second
1000, refresh at second 2000) and stores `rotatedToken`, issued at second
2000.  A refresh with `rotatedToken` in that same second answers 200 and
returns `rotatedToken` itself, so a second refresh with `rotatedToken` on
the resulting table answers 200 again instead of 401 "User not found". -/
theorem refresh_replay_same_second :
    Reachable demoEnv rotatedDb ∧
    (refresh demoEnv rotatedDb ⟨some rotatedToken⟩ 2000).1
      = .response 200 (.refreshTokens (jwt.sign "a@x" (some 2600) none "secret" 2000) 2600
          rotatedToken 88400) ∧
    (refresh demoEnv (refresh demoEnv rotatedDb ⟨some rotatedToken⟩ 2000).2
        ⟨some rotatedToken⟩ 2001).1
      = .response 200 (.refreshTokens (jwt.sign "a@x" (some 2601) none "secret" 2001) 2601
          (jwt.sign "a@x" none (some 88401) "secret" 2001) 88401) ∧
    (refresh demoEnv (refresh demoEnv rotatedDb ⟨some rotatedToken⟩ 2000).2
        ⟨some rotatedToken⟩ 2001).1
      ≠ .response 401 (.error "User not found") := by
  refine ⟨?_, by decide, by decide, by decide⟩
  exact Reachable.serve _ 2000
    (.refresh ⟨some (jwt.sign "a@x" none (some 4600) "secret" 1000)⟩)
    (Reachable.serve _ 1000 (.login ⟨"a@x", "pw", 600, 3600⟩)
      (Reachable.serve _ 0 (.register ⟨"a@x", "pw"⟩ 2) Reachable.empty))

/-- C2, amended: on every table whose rows own their stored refresh tokens,
if a refresh with `t` answers 200 with a refresh token different from `t`,
then the new token is stored, and a second refresh with `t` on the
resulting table answers 401 "User not found" at every time and changes
nothing. -/
theorem refresh_rotation_rejects_old (env : Env) (db db1 : Store) (t : Token)
    (now1 now2 : Int) (token newTok : Token) (exp refresh_exp : Int)
    (hinv : NamesOwner db)
    (hok : refresh env db ⟨some t⟩ now1
      = (.response 200 (.refreshTokens token exp newTok refresh_exp), db1))
    (hne : newTok ≠ t) :
    (∃ u ∈ db1, u.refresh = some newTok) ∧
    refresh env db1 ⟨some t⟩ now2 = (.response 401 (.error "User not found"), db1) := by
  obtain ⟨c, hv, ⟨u, hu, href⟩, hdb, hbody⟩ := refresh_success hok
  obtain ⟨hdec, htr⟩ := verify_ok_decode hv
  simp only [Body.refreshTokens.injEq] at hbody
  obtain ⟨-, -, hnew, -⟩ := hbody
  have hue : u.email = c.email := by
    have := hinv u hu
    simp [User.ownsRefresh, href, hdec] at this
    exact this.symm
  constructor
  · refine ⟨{ u with refresh := some newTok }, ?_, rfl⟩
    rw [hdb, ← hnew]
    simp only [updateRefresh, List.mem_map]
    exact ⟨u, hu, by simp [hue]⟩
  · have hnil : whereRefresh db1 t = [] := by
      rw [hdb, ← hnew]; exact whereRefresh_after_rotation hinv hdec hne
    simp [refresh, refreshChain, htr, hnil]

/-- Witness for C2 (amended): the login token of `demoDb` is refreshed at
second 2000 and then presented again at second 2001. -/
theorem refresh_rotation_rejects_old_witness :
    (∃ u ∈ rotatedDb, u.refresh = some rotatedToken) ∧
    refresh demoEnv rotatedDb ⟨some (jwt.sign "a@x" none (some 4600) "secret" 1000)⟩ 2001
      = (.response 401 (.error "User not found"), rotatedDb) :=
  refresh_rotation_rejects_old demoEnv demoDb rotatedDb
    (jwt.sign "a@x" none (some 4600) "secret" 1000) 2000 2001
    (jwt.sign "a@x" (some 2600) none "secret" 2000) rotatedToken 2600 88400
    (by decide) (by decide) (by decide)

/-! ## Expired tokens at logout and profile update -/

/-- The expiry test of the logout handler never fires on a refresh token
signed by this server: a stored one is cleared with answer 200 at every
clock reading, whatever its `refresh_exp`. -/
theorem logout_ignores_refresh_exp (env : Env) (db : Store) (email : String)
    (r i now : Int)
    (hstored : ∃ u ∈ db, u.refresh = some (jwt.sign email none (some r) env.JWT_SECRET i)) :
    logout env db ⟨some (jwt.sign email none (some r) env.JWT_SECRET i)⟩ now
      = (.response 200 .invalidated,
         clearRefresh db (jwt.sign email none (some r) env.JWT_SECRET i)) := by
  obtain ⟨u, hu, href⟩ := hstored
  have hlen : (whereRefresh db (jwt.sign email none (some r) env.JWT_SECRET i)).length ≠ 0 := by
    intro h0
    have hnil := List.length_eq_zero.mp h0
    simp only [whereRefresh, List.filter_eq_nil_iff, decide_eq_true_eq] at hnil
    exact hnil u hu href
  simp only [logout]
  simp only [jwt.sign, jwt.verify, Token.truthy, jsLt] at hlen ⊢
  simp [hlen]

/-- An access token whose `exp` is not above the clock reading never reaches
the expiry test of the profile update: `jwt.verify` throws and the error
middleware answers 500. -/
theorem putProfile_expired_access_token (env : Env) (db : Store) (req : ProfileReq)
    (e i now : Int)
    (hfields : req.firstname ≠ "" ∧ req.lastname ≠ "" ∧ req.dob ≠ "" ∧ req.address ≠ "")
    (hauth : req.authorization = .bearer (jwt.sign req.email (some e) none env.JWT_SECRET i))
    (hexp : e ≤ now) :
    putProfile env db req now = (.response 500 (.error "jwt expired"), db) := by
  obtain ⟨h1, h2, h3, h4⟩ := hfields
  simp [putProfile, h1, h2, h3, h4, hauth, jwt.verify, jwt.sign, hexp, errorHandler]

/-- C3, the code at a failing input: the user of `demoDb` logged in at
second 1000 with a refresh lifetime of 3600 seconds, so the stored refresh
token expired at second 4600.  A logout with that token at second 9000 is
answered 200 and clears the stored token: the handler compares the absent
claim `exp`, not `refresh_exp`, with the clock. -/
theorem logout_accepts_expired_refresh_token :
    logout demoEnv demoDb ⟨some (jwt.sign "a@x" none (some 4600) "secret" 1000)⟩ 9000
      = (.response 200 .invalidated,
         [⟨"a@x", "$$|pw", none, none, none, none, none⟩]) ∧
    demoDb = [⟨"a@x", "$$|pw", some (jwt.sign "a@x" none (some 4600) "secret" 1000),
               none, none, none, none⟩] := by
  constructor <;> decide

/-- C4, the code at a failing input: the access token issued to the user of
`demoDb` at second 1000 expired at second 1600.  A profile update carrying
it at second 9000 is answered by the error middleware with status 500 and
the message "jwt expired", not with 401; the table is unchanged. -/
theorem putProfile_expired_access_token_500 :
    putProfile demoEnv demoDb
        ⟨"a@x", "Ann", "Lee", "2000-01-01", "1 Main St",
          .bearer (jwt.sign "a@x" (some 1600) none "secret" 1000)⟩ 9000
      = (.response 500 (.error "jwt expired"), demoDb) := by
  decide

/-- C5: with all four profile fields present and a bearer token that
`jwt.verify` accepts (correct signature, not expired) but whose email is
not the path email, the profile update answers 403 "Forbidden" and leaves
the table as it was. -/
theorem putProfile_other_identity_forbidden (env : Env) (db : Store) (req : ProfileReq)
    (now : Int) (token : Token) (decoded : Claims)
    (hfields : req.firstname ≠ "" ∧ req.lastname ≠ "" ∧ req.dob ≠ "" ∧ req.address ≠ "")
    (hauth : req.authorization = .bearer token)
    (hverify : jwt.verify token env.JWT_SECRET now = .ok decoded)
    (hemail : decoded.email ≠ req.email) :
    putProfile env db req now = (.response 403 (.error "Forbidden"), db) := by
  obtain ⟨h1, h2, h3, h4⟩ := hfields
  simp [putProfile, h1, h2, h3, h4, hauth, hverify, hemail]

/-- Witness for C5: the unexpired access token of "a@x" used on the profile
of "b@x". -/
theorem putProfile_other_identity_forbidden_witness :
    putProfile demoEnv demoDb
        ⟨"b@x", "Ann", "Lee", "2000-01-01", "1 Main St",
          .bearer (jwt.sign "a@x" (some 1600) none "secret" 1000)⟩ 1200
      = (.response 403 (.error "Forbidden"), demoDb) :=
  putProfile_other_identity_forbidden demoEnv demoDb
    ⟨"b@x", "Ann", "Lee", "2000-01-01", "1 Main St",
      .bearer (jwt.sign "a@x" (some 1600) none "secret" 1000)⟩ 1200
    (jwt.sign "a@x" (some 1600) none "secret" 1000) ⟨"a@x", some 1600, none, 1000⟩
    (by decide) rfl (by decide) (by decide)

/-! ## Logout and the profile read -/

theorem whereEmail_unique {db : Store} {u : User}
    (huniq : (db.map User.email).Nodup) (hu : u ∈ db) : whereEmail db u.email = [u] := by
  induction db with
  | nil => simp at hu
  | cons v rest ih =>
    simp only [List.map_cons, List.nodup_cons, List.mem_map, not_exists, not_and] at huniq
    rcases List.mem_cons.mp hu with rfl | hmem
    · have : whereEmail rest u.email = [] := by
        simp only [whereEmail, List.filter_eq_nil_iff, decide_eq_true_eq]
        intro w hw; exact huniq.1 w hw
      simp only [whereEmail] at this
      simp [whereEmail, List.filter_cons, this]
    · have hne : v.email ≠ u.email := fun h => huniq.1 u hmem h.symm
      have := ih huniq.2 hmem
      simp only [whereEmail] at this
      simp [whereEmail, List.filter_cons, hne, this]

theorem clearRefresh_emails (db : Store) (t : Token) :
    (clearRefresh db t).map User.email = db.map User.email := by
  simp only [clearRefresh, List.map_map]
  apply List.map_congr_left
  intro u _
  by_cases h : u.refresh = some t <;> simp [h]

/-- A logout answered 200 has cleared the presented token from the table. -/
theorem logout_success {env : Env} {db : Store} {t : Token} {now : Int}
    (h : (logout env db ⟨some t⟩ now).1 = .response 200 .invalidated) :
    (logout env db ⟨some t⟩ now).2 = clearRefresh db t := by
  simp only [logout] at h ⊢
  split
  · rename_i hc; simp [hc] at h
  · rename_i hc
    simp only [hc] at h
    split
    · rename_i m hv; simp [hv, errorHandler] at h
    · rename_i c hv
      simp only [hv] at h
      split
      · rename_i hl; simp [hl] at h
      · split <;> rfl

/-- C6: on a table with one row per email, let `u` be a row storing the
refresh token `t`.  If a logout with `t` is answered 200, then a profile
read for the email of `u` on the resulting table answers 200 with exactly
email, firstname and lastname of `u` (whatever dob and address `u` has),
and the row of that email in the resulting table is `u` with the refresh
token set to null and every other field as before. -/
theorem logout_then_public_profile (env : Env) (db : Store) (u : User) (t : Token)
    (now now2 : Int)
    (huniq : (db.map User.email).Nodup) (hu : u ∈ db) (ht : u.refresh = some t)
    (hout : (logout env db ⟨some t⟩ now).1 = .response 200 .invalidated) :
    getProfile env (logout env db ⟨some t⟩ now).2 u.email now2
      = .response 200 (.publicProfile u.email u.firstname u.lastname) ∧
    whereEmail (logout env db ⟨some t⟩ now).2 u.email = [{ u with refresh := none }] := by
  rw [logout_success hout]
  have hmem : ({ u with refresh := none } : User) ∈ clearRefresh db t := by
    simp only [clearRefresh, List.mem_map]
    exact ⟨u, hu, by simp [ht]⟩
  have huniq1 : ((clearRefresh db t).map User.email).Nodup := by
    rw [clearRefresh_emails]; exact huniq
  have hw := whereEmail_unique huniq1 hmem
  simp only at hw
  refine ⟨?_, hw⟩
  simp [getProfile, hw, truthy]

/-- Witness for C6: the user of `profiledDb` has dob and address set and
logs out at second 2000 with the stored refresh token. -/
theorem logout_then_public_profile_witness :
    getProfile demoEnv
        (logout demoEnv profiledDb ⟨some (jwt.sign "a@x" none (some 4600) "secret" 1000)⟩ 2000).2
        "a@x" 2001
      = .response 200 (.publicProfile "a@x" (some "Ann") (some "Lee")) ∧
    whereEmail
        (logout demoEnv profiledDb ⟨some (jwt.sign "a@x" none (some 4600) "secret" 1000)⟩ 2000).2
        "a@x"
      = [⟨"a@x", "$$|pw", none, some "Ann", some "Lee", some "2000-01-01", some "1 Main St"⟩] :=
  logout_then_public_profile demoEnv profiledDb
    ⟨"a@x", "$$|pw", some (jwt.sign "a@x" none (some 4600) "secret" 1000),
      some "Ann", some "Lee", some "2000-01-01", some "1 Main St"⟩
    (jwt.sign "a@x" none (some 4600) "secret" 1000) 2000 2001
    (by decide) (by decide) rfl (by decide)

/-! ## Reachable tables -/

/-- The table after a request is the table before it, or the result of one
of the four writing statements of the handlers. -/
theorem serve_state (env : Env) (db : Store) (now : Int) (req : Request) :
    (serve env db now req).2 = db ∨
    (∃ e r i, (serve env db now req).2
        = updateRefresh db e (jwt.sign e none (some r) env.JWT_SECRET i)) ∨
    (∃ t, (serve env db now req).2 = clearRefresh db t) ∨
    (∃ e a b c d, (serve env db now req).2 = updateProfile db e a b c d) ∨
    (∃ e h, whereEmail db e = [] ∧ (serve env db now req).2 = insert db e h) := by
  cases req with
  | login req =>
    simp only [serve, login, loginChain]
    split
    · exact Or.inl rfl
    · split
      · rename_i r hr
        split at hr
        · simp at hr
        · split at hr
          · simp at hr
          · simp only [Except.ok.injEq] at hr
            subst hr
            exact Or.inr (Or.inl ⟨_, _, _, rfl⟩)
      · exact Or.inl rfl
  | register req salt =>
    simp only [serve, register, registerChain]
    split
    · exact Or.inl rfl
    · split
      · rename_i r hr
        split at hr
        · simp at hr
        · rename_i hw
          simp only [Except.ok.injEq] at hr
          subst hr
          exact Or.inr (Or.inr (Or.inr (Or.inr ⟨_, _, hw, rfl⟩)))
      · exact Or.inl rfl
  | refresh req =>
    simp only [serve, refresh, refreshChain]
    split
    · exact Or.inl rfl
    · split
      · exact Or.inl rfl
      · split
        · rename_i r hr
          split at hr
          · simp at hr
          · split at hr
            · simp at hr
            · split at hr
              · simp at hr
              · split at hr
                · simp only [Except.ok.injEq] at hr
                  subst hr
                  exact Or.inl rfl
                · simp only [Except.ok.injEq] at hr
                  subst hr
                  exact Or.inr (Or.inl ⟨_, _, _, rfl⟩)
        · exact Or.inl rfl
  | logout req =>
    simp only [serve, logout]
    split
    · exact Or.inl rfl
    · split
      · exact Or.inl rfl
      · split
        · exact Or.inl rfl
        · split
          · exact Or.inl rfl
          · split
            · exact Or.inr (Or.inr (Or.inl ⟨_, rfl⟩))
            · exact Or.inr (Or.inr (Or.inl ⟨_, rfl⟩))
  | getProfile email => exact Or.inl rfl
  | putProfile req =>
    simp only [serve, putProfile]
    split
    · exact Or.inl rfl
    · split
      · exact Or.inl rfl
      · exact Or.inl rfl
      · split
        · exact Or.inl rfl
        · split
          · exact Or.inl rfl
          · split
            · exact Or.inl rfl
            · split
              · exact Or.inr (Or.inr (Or.inr (Or.inl ⟨_, _, _, _, _, rfl⟩)))
              · exact Or.inr (Or.inr (Or.inr (Or.inl ⟨_, _, _, _, _, rfl⟩)))

theorem updateRefresh_emails (db : Store) (e : String) (t : Token) :
    (updateRefresh db e t).map User.email = db.map User.email := by
  simp only [updateRefresh, List.map_map]
  apply List.map_congr_left
  intro u _
  by_cases h : u.email = e <;> simp [h]

theorem updateProfile_emails (db : Store) (e a b c d : String) :
    (updateProfile db e a b c d).map User.email = db.map User.email := by
  simp only [updateProfile, List.map_map]
  apply List.map_congr_left
  intro u _
  by_cases h : u.email = e <;> simp [h]

/-- Serving a request keeps one row per email. -/
theorem serve_nodup (env : Env) (db : Store) (now : Int) (req : Request)
    (h : (db.map User.email).Nodup) : ((serve env db now req).2.map User.email).Nodup := by
  rcases serve_state env db now req with hs | ⟨e, r, i, hs⟩ | ⟨t, hs⟩ |
    ⟨e, a, b, c, d, hs⟩ | ⟨e, hh, hw, hs⟩
  · rw [hs]; exact h
  · rw [hs, updateRefresh_emails]; exact h
  · rw [hs, clearRefresh_emails]; exact h
  · rw [hs, updateProfile_emails]; exact h
  · rw [hs]
    simp only [insert, List.map_append, List.map_cons, List.map_nil]
    refine List.Nodup.append h (List.nodup_singleton _) ?_
    simp only [List.disjoint_singleton, List.mem_map, not_exists, not_and]
    intro u hu he
    simp only [whereEmail, List.filter_eq_nil_iff, decide_eq_true_eq] at hw
    exact hw u hu he

theorem reachable_nodup {env : Env} {db : Store} (h : Reachable env db) :
    (db.map User.email).Nodup := by
  induction h with
  | empty => simp
  | serve db now req _ ih => exact serve_nodup env db now req ih

/-- Serving a request keeps every stored refresh token signed for the row
that stores it. -/
theorem serve_signedForOwner (env : Env) (db : Store) (now : Int) (req : Request)
    (h : SignedForOwner env db) : SignedForOwner env (serve env db now req).2 := by
  rcases serve_state env db now req with hs | ⟨e, r, i, hs⟩ | ⟨t, hs⟩ |
    ⟨e, a, b, c, d, hs⟩ | ⟨e, hh, -, hs⟩
  · rw [hs]; exact h
  · rw [hs]
    intro v hv tok htok
    simp only [updateRefresh, List.mem_map] at hv
    obtain ⟨u, hu, rfl⟩ := hv
    by_cases he : u.email = e
    · simp only [he, if_true, Option.some.injEq] at htok ⊢
      exact ⟨r, i, htok.symm⟩
    · simp only [he, if_false] at htok ⊢
      exact h u hu tok htok
  · rw [hs]
    intro v hv tok htok
    simp only [clearRefresh, List.mem_map] at hv
    obtain ⟨u, hu, rfl⟩ := hv
    by_cases he : u.refresh = some t
    · simp [he] at htok
    · simp only [he, if_false] at htok ⊢
      exact h u hu tok htok
  · rw [hs]
    intro v hv tok htok
    simp only [updateProfile, List.mem_map] at hv
    obtain ⟨u, hu, rfl⟩ := hv
    by_cases he : u.email = e
    · simp only [he, if_true] at htok ⊢
      have := h u hu tok htok
      rw [he] at this
      exact this
    · simp only [he, if_false] at htok ⊢
      exact h u hu tok htok
  · rw [hs]
    intro v hv tok htok
    simp only [insert, List.mem_append, List.mem_singleton] at hv
    rcases hv with hv | rfl
    · exact h v hv tok htok
    · simp at htok

theorem reachable_signedForOwner {env : Env} {db : Store} (h : Reachable env db) :
    SignedForOwner env db := by
  induction h with
  | empty => intro u hu; simp at hu
  | serve db now req _ ih => exact serve_signedForOwner env db now req ih

/-- C7: in every table reachable from the empty table by register, login,
refresh, logout, profile read and profile update requests, a stored refresh
token that is not null decodes to claims whose email is the email of the
row storing it; moreover `jwt.verify` accepts it at every time and returns
those claims. -/
theorem stored_refresh_names_owner (env : Env) (db : Store) (h : Reachable env db) :
    ∀ u ∈ db, ∀ tok, u.refresh = some tok →
      ∃ c, jwt.decode tok = some c ∧ c.email = u.email ∧
        ∀ now, jwt.verify tok env.JWT_SECRET now = .ok c := by
  intro u hu tok htok
  obtain ⟨r, i, rfl⟩ := reachable_signedForOwner h u hu tok htok
  exact ⟨_, rfl, rfl, fun now => by simp [jwt.verify, jwt.sign]⟩

/-- Witness for C7: the row of "a@x" in the table `rotatedDb`, reached by a
register, a login and a refresh, stores `rotatedToken`. -/
theorem stored_refresh_names_owner_witness :
    ∃ c, jwt.decode rotatedToken = some c ∧ c.email = "a@x" ∧
      ∀ now, jwt.verify rotatedToken demoEnv.JWT_SECRET now = .ok c :=
  stored_refresh_names_owner demoEnv rotatedDb
    (Reachable.serve _ 2000
      (.refresh ⟨some (jwt.sign "a@x" none (some 4600) "secret" 1000)⟩)
      (Reachable.serve _ 1000 (.login ⟨"a@x", "pw", 600, 3600⟩)
        (Reachable.serve _ 0 (.register ⟨"a@x", "pw"⟩ 2) Reachable.empty)))
    ⟨"a@x", "$$|pw", some rotatedToken, none, none, none, none⟩ (by decide) rotatedToken rfl

/-! ## Expired refresh token at refresh -/

/-- C8: on every table, if the presented token `t` is the stored refresh
token of some row, `jwt.verify` accepts it, and its `refresh_exp` is below
the clock reading, then the refresh answers 401 "JWT token has expired"
(no token pair) and leaves the table, hence the stored token, as it was. -/
theorem refresh_expired_rejected (env : Env) (db : Store) (t : Token) (now : Int)
    (c : Claims) (r : Int)
    (hstored : ∃ u ∈ db, u.refresh = some t)
    (hv : jwt.verify t env.JWT_SECRET now = .ok c)
    (hr : c.refresh_exp = some r) (hlt : r < now) :
    refresh env db ⟨some t⟩ now = (.response 401 (.error "JWT token has expired"), db) := by
  obtain ⟨u, hu, href⟩ := hstored
  obtain ⟨-, htr⟩ := verify_ok_decode hv
  cases hw : whereRefresh db t with
  | nil =>
    simp only [whereRefresh, List.filter_eq_nil_iff, decide_eq_true_eq] at hw
    exact absurd href (hw u hu)
  | cons user rest =>
    obtain ⟨-, href1⟩ := whereRefresh_head hw
    simp [refresh, refreshChain, htr, hw, href1, hv, jsLt, hr, hlt]

/-- Witness for C8: the refresh token stored in `demoDb` expired at second
4600 and is presented at second 9000. -/
theorem refresh_expired_rejected_witness :
    refresh demoEnv demoDb ⟨some (jwt.sign "a@x" none (some 4600) "secret" 1000)⟩ 9000
      = (.response 401 (.error "JWT token has expired"), demoDb) :=
  refresh_expired_rejected demoEnv demoDb (jwt.sign "a@x" none (some 4600) "secret" 1000) 9000
    ⟨"a@x", none, some 4600, 1000⟩ 4600
    ⟨⟨"a@x", "$$|pw", some (jwt.sign "a@x" none (some 4600) "secret" 1000),
        none, none, none, none⟩, by decide, rfl⟩
    (by decide) rfl (by decide)

/-! ## Registration -/

/-- C9: on every table, a register request with non-empty email and
password whose email is the email of a stored row answers 500
"User already exists" and leaves the table as it was; and every table
reachable from the empty table has at most one row per email. -/
theorem register_duplicate_fails (env : Env) :
    (∀ (db : Store) (req : RegisterReq) (salt : Nat),
      req.email ≠ "" → req.password ≠ "" → (∃ u ∈ db, u.email = req.email) →
      register env db req salt = (.response 500 (.failure "User already exists"), db)) ∧
    (∀ db : Store, Reachable env db → (db.map User.email).Nodup) := by
  refine ⟨?_, fun db h => reachable_nodup h⟩
  rintro db req salt he hp ⟨u, hu, hue⟩
  cases hw : whereEmail db req.email with
  | nil =>
    simp only [whereEmail, List.filter_eq_nil_iff, decide_eq_true_eq] at hw
    exact absurd hue (hw u hu)
  | cons user rest => simp [register, registerChain, he, hp, hw]

/-- Witness for C9: a second registration of "a@x" on `demoDb`, and the
reachable table `demoDb`. -/
theorem register_duplicate_fails_witness :
    register demoEnv demoDb ⟨"a@x", "other"⟩ 5
      = (.response 500 (.failure "User already exists"), demoDb) ∧
    (demoDb.map User.email).Nodup :=
  ⟨(register_duplicate_fails demoEnv).1 demoDb ⟨"a@x", "other"⟩ 5 (by decide) (by decide)
      ⟨⟨"a@x", "$$|pw", some (jwt.sign "a@x" none (some 4600) "secret" 1000),
          none, none, none, none⟩, by decide, rfl⟩,
   (register_duplicate_fails demoEnv).2 demoDb
      (Reachable.serve _ 1000 (.login ⟨"a@x", "pw", 600, 3600⟩)
        (Reachable.serve _ 0 (.register ⟨"a@x", "pw"⟩ 2) Reachable.empty))⟩

/-! ## Registration followed by login -/

theorem whereEmail_updateRefresh (db : Store) (e : String) (t : Token) :
    whereEmail (updateRefresh db e t) e
      = (whereEmail db e).map (fun u => { u with refresh := some t }) := by
  induction db with
  | nil => rfl
  | cons v rest ih =>
    simp only [whereEmail, updateRefresh] at ih
    by_cases h : v.email = e
    · simp [whereEmail, updateRefresh, List.filter_cons, h, ih]
    · simp [whereEmail, updateRefresh, List.filter_cons, h, ih]

theorem whereEmail_insert {db : Store} {e : String} (h : whereEmail db e = []) (hash : String) :
    whereEmail (insert db e hash) e = [⟨e, hash, none, none, none, none, none⟩] := by
  simp only [whereEmail] at h
  simp [whereEmail, insert, List.filter_append, h, List.filter_cons]

theorem toDouble_safe {n : Int} (h : isSafeInteger n) : toDouble n = n := by
  unfold toDouble
  exact if_pos h

/-- Registration followed by login, for all lifetimes: the two `expires_in`
values are the binary64 sums of the clock reading and the lifetimes. -/
theorem register_then_login_rounded (env : Env) (db : Store) (e p : String) (salt : Nat)
    (bearerTtl refreshTtl now : Int)
    (he : e ≠ "") (hp : p ≠ "") (hnew : whereEmail db e = [])
    (hhash : env.compare p (env.hashSync p salt) = true) :
    register env db ⟨e, p⟩ salt
      = (.response 201 .created, insert db e (env.hashSync p salt)) ∧
    whereEmail (register env db ⟨e, p⟩ salt).2 e
      = [⟨e, env.hashSync p salt, none, none, none, none, none⟩] ∧
    (login env (register env db ⟨e, p⟩ salt).2 ⟨e, p, bearerTtl, refreshTtl⟩ now).1
      = .response 200 (.loginTokens
          (jwt.sign e (some (jsAdd now bearerTtl)) none env.JWT_SECRET now)
          (jsAdd now bearerTtl)
          (jwt.sign e none (some (jsAdd now refreshTtl)) env.JWT_SECRET now)
          (jsAdd now refreshTtl)) ∧
    whereEmail (login env (register env db ⟨e, p⟩ salt).2 ⟨e, p, bearerTtl, refreshTtl⟩ now).2 e
      = [⟨e, env.hashSync p salt,
          some (jwt.sign e none (some (jsAdd now refreshTtl)) env.JWT_SECRET now),
          none, none, none, none⟩] := by
  have hreg : register env db ⟨e, p⟩ salt
      = (.response 201 .created, insert db e (env.hashSync p salt)) := by
    simp [register, registerChain, he, hp, hnew]
  have hw := whereEmail_insert hnew (env.hashSync p salt)
  have hlogin : login env (insert db e (env.hashSync p salt)) ⟨e, p, bearerTtl, refreshTtl⟩ now
      = (.response 200 (.loginTokens
          (jwt.sign e (some (jsAdd now bearerTtl)) none env.JWT_SECRET now)
          (jsAdd now bearerTtl)
          (jwt.sign e none (some (jsAdd now refreshTtl)) env.JWT_SECRET now)
          (jsAdd now refreshTtl)),
         updateRefresh (insert db e (env.hashSync p salt)) e
          (jwt.sign e none (some (jsAdd now refreshTtl)) env.JWT_SECRET now)) := by
    simp [login, loginChain, he, hp, hw, hhash]
  rw [hreg]
  refine ⟨rfl, hw, ?_, ?_⟩
  · rw [hlogin]
  · rw [hlogin]
    simp only
    rw [whereEmail_updateRefresh, hw]
    rfl

/-- C10, counterexample: "a@x" registers on the empty table (201) and logs
in at second 1001 with `bearerExpiresInSeconds = 2 ^ 53` and
`refreshExpiresInSeconds = 3600`.  The answer is 200, but the `expires_in`
of the bearer token is 9007199254741992, the binary64 sum, and not
`now + bearerTtl = 9007199254741993`. -/
theorem login_expiry_not_exact_sum :
    register demoEnv [] ⟨"a@x", "pw"⟩ 2
      = (.response 201 .created, [⟨"a@x", "$$|pw", none, none, none, none, none⟩]) ∧
    (login demoEnv (register demoEnv [] ⟨"a@x", "pw"⟩ 2).2
        ⟨"a@x", "pw", 9007199254740992, 3600⟩ 1001).1
      = .response 200 (.loginTokens
          (jwt.sign "a@x" (some 9007199254741992) none "secret" 1001) 9007199254741992
          (jwt.sign "a@x" none (some 4601) "secret" 1001) 4601) ∧
    (9007199254741992 : Int) ≠ 1001 + 9007199254740992 ∧
    (9007199254740992 : Int) = 2 ^ 53 := by
  refine ⟨by decide, by decide, by decide, by norm_num⟩

/-- C10, amended: on a table with no row for the email `e`, with `e` and
the password `p` non-empty and a hasher that accepts `p` against the digest
it made of `p`, the registration of `(e, p)` answers 201 "User created" (no
token in the body) and adds a row for `e` whose refresh token is null.  If
the lifetimes `bearerTtl`, `refreshTtl` and their sums with the clock
reading `now` are safe integers (below `2 ^ 53` in magnitude), a login with
`(e, p)` and these lifetimes on the resulting table answers 200 with the
access token of `e` and `expires_in = now + bearerTtl`, the refresh token of
`e` and `expires_in = now + refreshTtl`, and afterwards the row of `e`
stores the returned refresh token. -/
theorem register_then_login (env : Env) (db : Store) (e p : String) (salt : Nat)
    (bearerTtl refreshTtl now : Int)
    (he : e ≠ "") (hp : p ≠ "") (hnew : whereEmail db e = [])
    (hhash : env.compare p (env.hashSync p salt) = true)
    (hbearer : isSafeInteger bearerTtl ∧ isSafeInteger (now + bearerTtl))
    (hrefresh : isSafeInteger refreshTtl ∧ isSafeInteger (now + refreshTtl)) :
    register env db ⟨e, p⟩ salt
      = (.response 201 .created, insert db e (env.hashSync p salt)) ∧
    whereEmail (register env db ⟨e, p⟩ salt).2 e
      = [⟨e, env.hashSync p salt, none, none, none, none, none⟩] ∧
    (login env (register env db ⟨e, p⟩ salt).2 ⟨e, p, bearerTtl, refreshTtl⟩ now).1
      = .response 200 (.loginTokens
          (jwt.sign e (some (now + bearerTtl)) none env.JWT_SECRET now) (now + bearerTtl)
          (jwt.sign e none (some (now + refreshTtl)) env.JWT_SECRET now) (now + refreshTtl)) ∧
    whereEmail (login env (register env db ⟨e, p⟩ salt).2 ⟨e, p, bearerTtl, refreshTtl⟩ now).2 e
      = [⟨e, env.hashSync p salt,
          some (jwt.sign e none (some (now + refreshTtl)) env.JWT_SECRET now),
          none, none, none, none⟩] := by
  have h := register_then_login_rounded env db e p salt bearerTtl refreshTtl now he hp hnew hhash
  have hb : jsAdd now bearerTtl = now + bearerTtl := toDouble_safe hbearer.2
  have hr : jsAdd now refreshTtl = now + refreshTtl := toDouble_safe hrefresh.2
  rw [hb, hr] at h
  exact h

/-- Witness for C10 (amended): "b@x" registers on `demoDb` and logs in at
second 5000 with lifetimes 600 and 3600. -/
theorem register_then_login_witness :
    register demoEnv demoDb ⟨"b@x", "pw2"⟩ 1
      = (.response 201 .created, insert demoDb "b@x" (demoEnv.hashSync "pw2" 1)) ∧
    whereEmail (register demoEnv demoDb ⟨"b@x", "pw2"⟩ 1).2 "b@x"
      = [⟨"b@x", demoEnv.hashSync "pw2" 1, none, none, none, none, none⟩] ∧
    (login demoEnv (register demoEnv demoDb ⟨"b@x", "pw2"⟩ 1).2 ⟨"b@x", "pw2", 600, 3600⟩ 5000).1
      = .response 200 (.loginTokens
          (jwt.sign "b@x" (some (5000 + 600)) none demoEnv.JWT_SECRET 5000) (5000 + 600)
          (jwt.sign "b@x" none (some (5000 + 3600)) demoEnv.JWT_SECRET 5000) (5000 + 3600)) ∧
    whereEmail
        (login demoEnv (register demoEnv demoDb ⟨"b@x", "pw2"⟩ 1).2
          ⟨"b@x", "pw2", 600, 3600⟩ 5000).2 "b@x"
      = [⟨"b@x", demoEnv.hashSync "pw2" 1,
          some (jwt.sign "b@x" none (some (5000 + 3600)) demoEnv.JWT_SECRET 5000),
          none, none, none, none⟩] :=
  register_then_login demoEnv demoDb "b@x" "pw2" 1 600 3600 5000
    (by decide) (by decide) (by decide) (by decide) (by decide) (by decide)

/-! ## Profile update with a refresh token -/

theorem whereEmail_updateProfile (db : Store) (e a b c d : String) :
    whereEmail (updateProfile db e a b c d) e
      = (whereEmail db e).map (fun u =>
          { u with firstname := some a, lastname := some b, dob := some c, address := some d }) := by
  induction db with
  | nil => rfl
  | cons v rest ih =>
    simp only [whereEmail, updateProfile] at ih
    by_cases h : v.email = e
    · simp [whereEmail, updateProfile, List.filter_cons, h, ih]
    · simp [whereEmail, updateProfile, List.filter_cons, h, ih]

/-- C11: the profile update accepts a refresh token in place of an access
token.  Let the table have a row for the path email, let all four profile
fields be present, and let the bearer token be a refresh token signed by
this server for the path email (claims `email`, `refresh_exp` and `iat`, no
`exp`) whose `refresh_exp` is not below the clock reading.  Then
`jwt.verify` accepts the token, its email is the path email, the expiry
test does not fire, the four fields are written to the rows of that email
and the answer is 200 with the four fields. -/
theorem putProfile_accepts_refresh_token (env : Env) (db : Store) (req : ProfileReq)
    (r i now : Int) (u : User) (rest : List User)
    (hfields : req.firstname ≠ "" ∧ req.lastname ≠ "" ∧ req.dob ≠ "" ∧ req.address ≠ "")
    (hauth : req.authorization = .bearer (jwt.sign req.email none (some r) env.JWT_SECRET i))
    (hlive : now ≤ r)
    (hrow : whereEmail db req.email = u :: rest) :
    (∃ decoded, jwt.verify (jwt.sign req.email none (some r) env.JWT_SECRET i) env.JWT_SECRET now
        = .ok decoded ∧ decoded.exp = none ∧ decoded.email = req.email ∧
        jsLt decoded.refresh_exp now = false) ∧
    putProfile env db req now
      = (.response 200 (.updated (some req.firstname) (some req.lastname)
            (some req.dob) (some req.address)),
         updateProfile db req.email req.firstname req.lastname req.dob req.address) ∧
    whereEmail (putProfile env db req now).2 req.email
      = (u :: rest).map (fun v =>
          { v with firstname := some req.firstname, lastname := some req.lastname,
                   dob := some req.dob, address := some req.address }) := by
  obtain ⟨h1, h2, h3, h4⟩ := hfields
  have hnlt : ¬ r < now := not_lt.mpr hlive
  have hw := whereEmail_updateProfile db req.email req.firstname req.lastname req.dob req.address
  rw [hrow] at hw
  have hput : putProfile env db req now
      = (.response 200 (.updated (some req.firstname) (some req.lastname)
            (some req.dob) (some req.address)),
         updateProfile db req.email req.firstname req.lastname req.dob req.address) := by
    simp [putProfile, h1, h2, h3, h4, hauth, jwt.verify, jwt.sign, jsLt, hnlt, hw]
  refine ⟨⟨⟨req.email, none, some r, i⟩, by simp [jwt.verify, jwt.sign], rfl, rfl,
    by simp [jsLt, hnlt]⟩, hput, ?_⟩
  rw [hput]
  exact hw

/-- Witness for C11: at second 1200 the user of `demoDb` sends the refresh
token obtained at login (refresh_exp 4600) as bearer token of a profile
update. -/
theorem putProfile_accepts_refresh_token_witness :
    (∃ decoded, jwt.verify (jwt.sign "a@x" none (some 4600) demoEnv.JWT_SECRET 1000)
        demoEnv.JWT_SECRET 1200 = .ok decoded ∧ decoded.exp = none ∧ decoded.email = "a@x" ∧
        jsLt decoded.refresh_exp 1200 = false) ∧
    putProfile demoEnv demoDb
        ⟨"a@x", "Ann", "Lee", "2000-01-01", "1 Main St",
          .bearer (jwt.sign "a@x" none (some 4600) "secret" 1000)⟩ 1200
      = (.response 200 (.updated (some "Ann") (some "Lee") (some "2000-01-01")
            (some "1 Main St")),
         updateProfile demoDb "a@x" "Ann" "Lee" "2000-01-01" "1 Main St") ∧
    whereEmail (putProfile demoEnv demoDb
        ⟨"a@x", "Ann", "Lee", "2000-01-01", "1 Main St",
          .bearer (jwt.sign "a@x" none (some 4600) "secret" 1000)⟩ 1200).2 "a@x"
      = [⟨"a@x", "$$|pw", some (jwt.sign "a@x" none (some 4600) "secret" 1000),
          some "Ann", some "Lee", some "2000-01-01", some "1 Main St"⟩] :=
  putProfile_accepts_refresh_token demoEnv demoDb
    ⟨"a@x", "Ann", "Lee", "2000-01-01", "1 Main St",
      .bearer (jwt.sign "a@x" none (some 4600) "secret" 1000)⟩
    4600 1000 1200
    ⟨"a@x", "$$|pw", some (jwt.sign "a@x" none (some 4600) "secret" 1000),
      none, none, none, none⟩ []
    (by decide) rfl (by decide) (by decide)

end Users
